import Mathlib

/-!
Shallow embedding of scripts/convert_icons.py: a batch converter turning a
fixed list of PNG toolbar icons into 48x48 BMP images with a magenta
transparency key.  Pixels are modelled as records of natural-number channel
values (0..255 in practice), images as functions over coordinates, and the
filesystem as maps from icon names to optional file contents.  The
third-party image library primitives (decode and LANCZOS resize) are not
code of this repository; they are modelled as a quantified parameter
producing the post-resize 48x48 RGBA image.
-/

namespace ConvertIcons

/-- ICON_SIZE constant from the script: output images are 48x48. -/
def ICON_SIZE : Nat := 48

/-- A 3-channel color pixel, as in a PIL RGB-mode image. -/
structure RGB where
  r : Nat
  g : Nat
  b : Nat
deriving DecidableEq, Repr

/-- A 4-channel color pixel with alpha, as in a PIL RGBA-mode image. -/
structure RGBA where
  r : Nat
  g : Nat
  b : Nat
  a : Nat
deriving DecidableEq, Repr

/-- MAGENTA constant (255, 0, 255): the transparency-key background color. -/
def MAGENTA : RGB := ⟨255, 0, 255⟩

/-- DARK_GRAY constant (60, 60, 60): replacement for near-black channel values. -/
def DARK_GRAY : RGB := ⟨60, 60, 60⟩

/-- The alpha point operation on line 46 of the script:
lambda x: 255 if x > 128 else 0. -/
def thresholdAlpha (x : Nat) : Nat := if x > 128 then 255 else 0

/-- The channel point operation on lines 49-51 of the script:
lambda x: DARK_GRAY[i] if x < 50 else x, with c the replacement value. -/
def recolor (c : Nat) (x : Nat) : Nat := if x < 50 then c else x

/-- A decoded source image of arbitrary dimensions (PIL RGBA image). -/
structure SourceImage where
  width : Nat
  height : Nat
  pix : Nat → Nat → RGBA

/-- A 48x48 RGBA raster: the result of the resize on line 41. -/
abbrev Img48 : Type := Fin ICON_SIZE → Fin ICON_SIZE → RGBA

/-- The library-provided decode-and-resize pipeline (Image.open, convert
to RGBA, resize to 48x48 with LANCZOS).  Third-party code, taken as a
parameter of the embedding. -/
abbrev Resize : Type := SourceImage → Img48

/-- PIL image mode of an encoded output file. -/
inductive ColorMode where
  | RGB
  | RGBA
deriving DecidableEq, Repr

/-- Number of channels of a PIL image mode. -/
def ColorMode.channels : ColorMode → Nat
  | .RGB => 3
  | .RGBA => 4

/-- Whether a PIL image mode carries an alpha channel. -/
def ColorMode.hasAlpha : ColorMode → Bool
  | .RGB => false
  | .RGBA => true

/-- An encoded BMP output file: dimensions, mode and pixel raster. -/
structure BMPImage where
  width : Nat
  height : Nat
  mode : ColorMode
  pix : Fin ICON_SIZE → Fin ICON_SIZE → RGB

/-- Lines 44-53 of the script applied to one pixel: split the channels,
threshold the alpha, recolor each color channel independently, and merge
back into an RGBA pixel. -/
def processPixel (p : RGBA) : RGBA :=
  ⟨recolor DARK_GRAY.r p.r, recolor DARK_GRAY.g p.g, recolor DARK_GRAY.b p.b,
   thresholdAlpha p.a⟩

/-- The color part of an RGBA pixel. -/
def rgbOf (p : RGBA) : RGB := ⟨p.r, p.g, p.b⟩

/-- Lines 44-59 of the script on the post-resize raster: process each pixel,
then paste onto the magenta RGB canvas using the thresholded alpha as mask
(mask 255 copies the processed color, mask 0 keeps the background). -/
def convertPixels (img : Img48) : Fin ICON_SIZE → Fin ICON_SIZE → RGB :=
  fun i j =>
    let p := processPixel (img i j)
    if p.a = 255 then rgbOf p else MAGENTA

/-- The BMP file written on line 62: the 48x48 RGB canvas of line 56 after
the paste of line 59, saved in BMP format. -/
def outputImage (resized : Img48) : BMPImage :=
  { width := ICON_SIZE, height := ICON_SIZE, mode := ColorMode.RGB,
    pix := convertPixels resized }

/-- BASE_DIR path of line 18, as a string relative to the project root. -/
def BASE_DIR : String := "src/manager/resources"

/-- SRC_DIR path of line 19. -/
def SRC_DIR : String := BASE_DIR ++ "/material"

/-- DST_DIR path of line 20. -/
def DST_DIR : String := BASE_DIR

/-- ICONS list of lines 22-30: the fixed batch of seven icon names. -/
def ICONS : List String :=
  ["new_vm", "edit", "delete", "start", "stop", "reboot", "shutdown"]

/-- Filesystem state: the source directory maps icon names to the decoded
content of name.png when that file exists and decodes; the destination
directory records whether it exists and which name.bmp files it holds. -/
@[ext] structure FSState where
  srcFiles : String → Option SourceImage
  dstDirExists : Bool
  dstFiles : String → Option BMPImage

/-- The skip notice printed on line 37. -/
def skipMsg (name : String) : String :=
  "  [SKIP] " ++ SRC_DIR ++ "/" ++ name ++ ".png not found"

/-- The success notice printed on line 63. -/
def okMsg (name : String) : String := "  [OK] " ++ name ++ ".bmp"

/-- convert_icon (lines 32-64): check existence of the source file; if
absent print a skip notice and return False; otherwise decode, resize,
process, composite, create the destination directory, write name.bmp and
return True.  Returns the boolean result, the updated filesystem state and
the console output. -/
def convert_icon (resize : Resize) (fs : FSState) (name : String) :
    Bool × FSState × List String :=
  match fs.srcFiles name with
  | none => (false, fs, [skipMsg name])
  | some src =>
      let out := outputImage (resize src)
      (true,
       { srcFiles := fs.srcFiles,
         dstDirExists := true,
         dstFiles := fun m => if m = name then some out else fs.dstFiles m },
       [okMsg name])

/-- The loop body of main (lines 71-74) over a list of names: call
convert_icon on each name in order, threading the filesystem state,
counting True results and accumulating console output. -/
def runIcons (resize : Resize) (names : List String) (fs : FSState) :
    FSState × Nat × List String :=
  match names with
  | [] => (fs, 0, [])
  | n :: rest =>
      let step := convert_icon resize fs n
      let recur := runIcons resize rest step.2.1
      (recur.1, (if step.1 then 1 else 0) + recur.2.1, step.2.2 ++ recur.2.2)

/-- main (lines 66-77): print the header, run the batch over ICONS, and
print the final summary line. -/
def main (resize : Resize) (fs : FSState) : FSState × Nat × List String :=
  let r := runIcons resize ICONS fs
  (r.1, r.2.1,
   ["Source: " ++ SRC_DIR, "Output: " ++ DST_DIR, ""] ++ r.2.2 ++
   ["", "Converted " ++ toString r.2.1 ++ "/" ++ toString ICONS.length ++ " icons"])

/-- Number of names in the list whose source file exists (and decodes). -/
def countPresent (fs : FSState) (names : List String) : Nat :=
  names.countP (fun n => (fs.srcFiles n).isSome)

/-- A sample decoded source image: fully opaque black, 64x64. -/
def sampleSrc : SourceImage := ⟨64, 64, fun _ _ => ⟨0, 0, 0, 255⟩⟩

/-- A sample resize result for concrete instantiations: opaque black. -/
def sampleResize : Resize := fun _ _ _ => ⟨0, 0, 0, 255⟩

/-- Filesystem with no source files and an empty destination directory. -/
def fsEmpty : FSState := ⟨fun _ => none, false, fun _ => none⟩

/-- Filesystem where exactly new_vm, edit and delete have source files. -/
def fsThree : FSState :=
  ⟨fun n => if n = "new_vm" ∨ n = "edit" ∨ n = "delete" then some sampleSrc else none,
   false, fun _ => none⟩

/-- A constant fully opaque black 48x48 raster. -/
def blackImg : Img48 := fun _ _ => ⟨0, 0, 0, 255⟩

/-- A constant fully transparent 48x48 raster. -/
def clearImg : Img48 := fun _ _ => ⟨10, 20, 30, 0⟩

/-- The origin coordinate of a 48x48 raster. -/
def c0 : Fin ICON_SIZE := ⟨0, by decide⟩

/-- Any recolored channel value is at least 50 when the replacement is. -/
lemma le_recolor (c x : Nat) (hc : 50 ≤ c) : 50 ≤ recolor c x := by
  unfold recolor
  split <;> omega

/-- convert_icon never changes the source directory. -/
lemma convert_icon_srcFiles (resize : Resize) (fs : FSState) (name : String) :
    (convert_icon resize fs name).2.1.srcFiles = fs.srcFiles := by
  cases h : fs.srcFiles name <;> simp [convert_icon, h]

/-- convert_icon returns True exactly when the source file is present. -/
lemma convert_icon_ok (resize : Resize) (fs : FSState) (name : String) :
    (convert_icon resize fs name).1 = (fs.srcFiles name).isSome := by
  cases h : fs.srcFiles name <;> simp [convert_icon, h]

/-- convert_icon prints one line: the success notice when the source file
is present and the skip notice otherwise. -/
lemma convert_icon_log (resize : Resize) (fs : FSState) (name : String) :
    (convert_icon resize fs name).2.2 =
      [if (fs.srcFiles name).isSome then okMsg name else skipMsg name] := by
  cases h : fs.srcFiles name <;> simp [convert_icon, h]

/-- Effect of convert_icon on one destination file: the converted output
is stored under the converted name when the source is present; every other
entry is untouched. -/
lemma convert_icon_dstFiles (resize : Resize) (fs : FSState) (name m : String) :
    (convert_icon resize fs name).2.1.dstFiles m =
      if m = name ∧ (fs.srcFiles name).isSome
      then (fs.srcFiles name).map (fun src => outputImage (resize src))
      else fs.dstFiles m := by
  cases h : fs.srcFiles name <;>
    by_cases hm : m = name <;>
    simp [convert_icon, h, hm]

/-- Effect of convert_icon on the destination directory flag. -/
lemma convert_icon_dir (resize : Resize) (fs : FSState) (name : String) :
    (convert_icon resize fs name).2.1.dstDirExists =
      (fs.dstDirExists || (fs.srcFiles name).isSome) := by
  cases h : fs.srcFiles name <;> simp [convert_icon, h]

/-- The batch loop never changes the source directory. -/
lemma runIcons_srcFiles (resize : Resize) (names : List String) (fs : FSState) :
    (runIcons resize names fs).1.srcFiles = fs.srcFiles := by
  induction names generalizing fs with
  | nil => rfl
  | cons n rest ih =>
      simp only [runIcons]
      rw [ih, convert_icon_srcFiles]

/-- The success count of the batch loop is the number of names whose
source file is present. -/
lemma runIcons_count (resize : Resize) (names : List String) (fs : FSState) :
    (runIcons resize names fs).2.1 = countPresent fs names := by
  induction names generalizing fs with
  | nil => rfl
  | cons n rest ih =>
      simp only [runIcons, countPresent, List.countP_cons]
      rw [ih, convert_icon_ok]
      simp only [countPresent, convert_icon_srcFiles]
      cases h : (fs.srcFiles n).isSome <;> simp [h]
      omega

/-- The batch loop prints exactly one status line per name, in order. -/
lemma runIcons_log (resize : Resize) (names : List String) (fs : FSState) :
    (runIcons resize names fs).2.2 =
      names.map (fun n => if (fs.srcFiles n).isSome then okMsg n else skipMsg n) := by
  induction names generalizing fs with
  | nil => rfl
  | cons n rest ih =>
      simp only [runIcons, List.map_cons]
      rw [ih, convert_icon_log]
      simp [convert_icon_srcFiles]

/-- Destination files after the batch loop: each name in the list with a
present source file holds that source's converted output; every other
entry is untouched. -/
lemma runIcons_dstFiles (resize : Resize) (names : List String) (fs : FSState)
    (n : String) :
    (runIcons resize names fs).1.dstFiles n =
      if n ∈ names ∧ (fs.srcFiles n).isSome
      then (fs.srcFiles n).map (fun src => outputImage (resize src))
      else fs.dstFiles n := by
  induction names generalizing fs with
  | nil => simp [runIcons]
  | cons m rest ih =>
      simp only [runIcons]
      rw [ih, convert_icon_srcFiles, convert_icon_dstFiles]
      by_cases hn : n = m <;>
        by_cases hr : n ∈ rest <;>
        by_cases hp : (fs.srcFiles n).isSome <;>
        simp_all [List.mem_cons]

/-- The destination directory flag after the batch loop. -/
lemma runIcons_dir (resize : Resize) (names : List String) (fs : FSState) :
    (runIcons resize names fs).1.dstDirExists =
      (fs.dstDirExists || names.any (fun n => (fs.srcFiles n).isSome)) := by
  induction names generalizing fs with
  | nil => simp [runIcons]
  | cons m rest ih =>
      simp only [runIcons, List.any_cons]
      rw [ih, convert_icon_srcFiles, convert_icon_dir, Bool.or_assoc]

/-- The count and console output of the batch loop depend only on the
source directory. -/
lemma runIcons_congr (resize : Resize) (names : List String) (fs fs' : FSState)
    (h : fs.srcFiles = fs'.srcFiles) :
    (runIcons resize names fs).2 = (runIcons resize names fs').2 := by
  have hc : (runIcons resize names fs).2.1 = (runIcons resize names fs').2.1 := by
    rw [runIcons_count, runIcons_count]
    unfold countPresent
    rw [h]
  have hl : (runIcons resize names fs).2.2 = (runIcons resize names fs').2.2 := by
    rw [runIcons_log, runIcons_log, h]
  exact Prod.ext hc hl

/-- C1: if the source file name.png is absent from the source directory,
convert_icon returns false, prints a skip notice, writes no output file
(the destination files are unchanged), and raises no exception (it is a
total function returning normally). -/
theorem convert_icon_missing (resize : Resize) (fs : FSState) (name : String)
    (h : fs.srcFiles name = none) :
    (convert_icon resize fs name).1 = false ∧
    (convert_icon resize fs name).2.1.dstFiles = fs.dstFiles ∧
    (convert_icon resize fs name).2.2 = [skipMsg name] := by
  simp [convert_icon, h]

/-- Witness for C1 at the empty filesystem and the name edit. -/
theorem convert_icon_missing_witness :
    (convert_icon sampleResize fsEmpty "edit").1 = false ∧
    (convert_icon sampleResize fsEmpty "edit").2.1.dstFiles = fsEmpty.dstFiles ∧
    (convert_icon sampleResize fsEmpty "edit").2.2 = [skipMsg "edit"] :=
  convert_icon_missing sampleResize fsEmpty "edit" rfl

/-- C2: if the source file exists and decodes, convert_icon returns true
and the output file written under the icon name is exactly 48x48 in
3-channel RGB mode with no alpha channel. -/
theorem convert_icon_present (resize : Resize) (fs : FSState) (name : String)
    (src : SourceImage) (h : fs.srcFiles name = some src) :
    (convert_icon resize fs name).1 = true ∧
    ∃ out : BMPImage,
      (convert_icon resize fs name).2.1.dstFiles name = some out ∧
      out.width = 48 ∧ out.height = 48 ∧
      out.mode.channels = 3 ∧ out.mode.hasAlpha = false := by
  refine ⟨by simp [convert_icon, h], outputImage (resize src), ?_, rfl, rfl, rfl, rfl⟩
  simp [convert_icon, h]

/-- Witness for C2 at a filesystem where edit.png exists. -/
theorem convert_icon_present_witness :
    (convert_icon sampleResize fsThree "edit").1 = true ∧
    ∃ out : BMPImage,
      (convert_icon sampleResize fsThree "edit").2.1.dstFiles "edit" = some out ∧
      out.width = 48 ∧ out.height = 48 ∧
      out.mode.channels = 3 ∧ out.mode.hasAlpha = false :=
  convert_icon_present sampleResize fsThree "edit" sampleSrc rfl

/-- C3: the alpha threshold step maps every alpha value strictly greater
than 128 to 255 and every alpha value at most 128 to 0; in particular 128
maps to transparent and 129 to opaque, and the processed pixel alpha is
exactly the thresholded source alpha. -/
theorem alpha_threshold_spec (p : RGBA) (x : Nat) :
    (processPixel p).a = thresholdAlpha p.a ∧
    (128 < x → thresholdAlpha x = 255) ∧
    (x ≤ 128 → thresholdAlpha x = 0) ∧
    thresholdAlpha 128 = 0 ∧ thresholdAlpha 129 = 255 := by
  refine ⟨rfl, fun h => ?_, fun h => ?_, rfl, rfl⟩
  · unfold thresholdAlpha
    rw [if_pos h]
  · unfold thresholdAlpha
    rw [if_neg (by omega)]

/-- Witness for C3 at the boundary alpha values 129 and 128. -/
theorem alpha_threshold_spec_witness :
    thresholdAlpha 129 = 255 ∧ thresholdAlpha 128 = 0 :=
  ⟨(alpha_threshold_spec ⟨0, 0, 0, 0⟩ 129).2.1 (by decide),
   (alpha_threshold_spec ⟨0, 0, 0, 0⟩ 128).2.2.1 (by decide)⟩

/-- C4: the recolor step acts on the red, green and blue channels
independently: a channel value strictly below 50 becomes 60 and a value
at least 50 is unchanged; in particular 50 stays 50 and 49 becomes 60. -/
theorem recolor_spec (p : RGBA) (x : Nat) :
    (processPixel p).r = recolor DARK_GRAY.r p.r ∧
    (processPixel p).g = recolor DARK_GRAY.g p.g ∧
    (processPixel p).b = recolor DARK_GRAY.b p.b ∧
    (x < 50 → recolor DARK_GRAY.r x = 60) ∧
    (50 ≤ x → recolor DARK_GRAY.g x = x) ∧
    recolor DARK_GRAY.b 50 = 50 ∧ recolor DARK_GRAY.r 49 = 60 := by
  refine ⟨rfl, rfl, rfl, fun h => ?_, fun h => ?_, rfl, rfl⟩
  · unfold recolor
    rw [if_pos h]
    rfl
  · unfold recolor
    rw [if_neg (by omega)]

/-- Witness for C4 at the boundary channel values 49 and 50. -/
theorem recolor_spec_witness :
    recolor DARK_GRAY.r 49 = 60 ∧ recolor DARK_GRAY.g 50 = 50 :=
  ⟨(recolor_spec ⟨0, 0, 0, 0⟩ 49).2.2.2.1 (by decide),
   (recolor_spec ⟨0, 0, 0, 0⟩ 50).2.2.2.2.1 (by decide)⟩

/-- C5: each pixel of the 48x48 output is the processed (recolored) color
where the thresholded alpha is opaque and the magenta background where it
is transparent; in particular a fully opaque black source pixel yields
(60, 60, 60) and a fully transparent source pixel yields (255, 0, 255). -/
theorem composite_spec (img : Img48) (i j : Fin ICON_SIZE) :
    (convertPixels img i j =
      if thresholdAlpha (img i j).a = 255 then rgbOf (processPixel (img i j))
      else MAGENTA) ∧
    (img i j = ⟨0, 0, 0, 255⟩ → convertPixels img i j = DARK_GRAY) ∧
    ((img i j).a = 0 → convertPixels img i j = MAGENTA) := by
  refine ⟨rfl, fun h => ?_, fun h => ?_⟩
  · simp only [convertPixels, h]
    rfl
  · simp [convertPixels, processPixel, thresholdAlpha, h, MAGENTA]

/-- Witness for C5 at an opaque black raster and a transparent raster. -/
theorem composite_spec_witness :
    convertPixels blackImg c0 c0 = DARK_GRAY ∧
    convertPixels clearImg c0 c0 = MAGENTA :=
  ⟨(composite_spec blackImg c0 c0).2.1 rfl,
   (composite_spec clearImg c0 c0).2.2 rfl⟩

/-- C9: when the source file is absent, convert_icon performs no
filesystem modification at all: the whole filesystem state, and in
particular the destination-directory-exists flag, is unchanged. -/
theorem convert_icon_missing_no_effect (resize : Resize) (fs : FSState)
    (name : String) (h : fs.srcFiles name = none) :
    (convert_icon resize fs name).2.1 = fs ∧
    (convert_icon resize fs name).2.1.dstDirExists = fs.dstDirExists := by
  simp [convert_icon, h]

/-- Witness for C9 at the empty filesystem and the name start. -/
theorem convert_icon_missing_no_effect_witness :
    (convert_icon sampleResize fsEmpty "start").2.1 = fsEmpty ∧
    (convert_icon sampleResize fsEmpty "start").2.1.dstDirExists = fsEmpty.dstDirExists :=
  convert_icon_missing_no_effect sampleResize fsEmpty "start" rfl

/-- Filesystem where exactly edit has a source file and the destination
directory already exists. -/
def fsEdit : FSState :=
  ⟨fun n => if n = "edit" then some sampleSrc else none, true, fun _ => none⟩

/-- C6: main iterates the fixed list of 7 icon names exactly once in
order (one status line per name), counts the names whose conversion
returned true, and ends its console output with the summary line giving
count and total 7; when exactly 3 source files exist the summary reads
Converted 3/7 icons. -/
theorem main_summary (resize : Resize) (fs : FSState) :
    ICONS.length = 7 ∧
    (main resize fs).2.1 = countPresent fs ICONS ∧
    (runIcons resize ICONS fs).2.2 =
      ICONS.map (fun n => if (fs.srcFiles n).isSome then okMsg n else skipMsg n) ∧
    (∃ pre : List String, (main resize fs).2.2 =
      pre ++ ["Converted " ++ toString (countPresent fs ICONS) ++ "/7 icons"]) ∧
    (countPresent fs ICONS = 3 →
      ∃ pre : List String,
        (main resize fs).2.2 = pre ++ ["Converted 3/7 icons"]) := by
  have hsum : ∀ t : String,
      "Converted " ++ t ++ "/" ++ toString ICONS.length ++ " icons" =
        "Converted " ++ t ++ "/7 icons" := by
    intro t
    have h7 : toString ICONS.length = "7" := rfl
    rw [h7, String.append_assoc, String.append_assoc]
    rfl
  have hmain : (main resize fs).2.2 =
      (["Source: " ++ SRC_DIR, "Output: " ++ DST_DIR, ""] ++
        (runIcons resize ICONS fs).2.2 ++ [""]) ++
      ["Converted " ++ toString (countPresent fs ICONS) ++ "/7 icons"] := by
    show ["Source: " ++ SRC_DIR, "Output: " ++ DST_DIR, ""] ++
        (runIcons resize ICONS fs).2.2 ++
        ["", "Converted " ++ toString (runIcons resize ICONS fs).2.1 ++ "/" ++
          toString ICONS.length ++ " icons"] = _
    rw [hsum, runIcons_count]
    simp
  refine ⟨rfl, runIcons_count resize ICONS fs, runIcons_log resize ICONS fs,
    ⟨_, hmain⟩, fun h => ?_⟩
  refine ⟨["Source: " ++ SRC_DIR, "Output: " ++ DST_DIR, ""] ++
    (runIcons resize ICONS fs).2.2 ++ [""], ?_⟩
  rw [hmain, h]
  rfl

/-- Witness for C6 at a filesystem where exactly 3 of the 7 sources exist. -/
theorem main_summary_witness :
    countPresent fsThree ICONS = 3 ∧
    ∃ pre : List String,
      (main sampleResize fsThree).2.2 = pre ++ ["Converted 3/7 icons"] :=
  ⟨rfl, (main_summary sampleResize fsThree).2.2.2.2 rfl⟩

/-- C7: running the batch a second time on the filesystem left by the
first run (source files unchanged) reproduces the same filesystem state,
so the output files are byte-identical, and the same count and console
output: each conversion is a deterministic function of its source file. -/
theorem batch_idempotent (resize : Resize) (fs : FSState) :
    (main resize (main resize fs).1).1 = (main resize fs).1 ∧
    (main resize (main resize fs).1).2 = (main resize fs).2 := by
  have hsrc : ((main resize fs).1).srcFiles = fs.srcFiles :=
    runIcons_srcFiles resize ICONS fs
  constructor
  · show (runIcons resize ICONS ((main resize fs).1)).1 = (main resize fs).1
    refine FSState.ext ?_ ?_ ?_
    · rw [runIcons_srcFiles]
    · rw [runIcons_dir resize ICONS ((main resize fs).1), hsrc,
          show ((main resize fs).1).dstDirExists =
            (fs.dstDirExists || ICONS.any (fun n => (fs.srcFiles n).isSome))
          from runIcons_dir resize ICONS fs,
          Bool.or_assoc, Bool.or_self]
    · funext n
      rw [runIcons_dstFiles resize ICONS ((main resize fs).1) n, hsrc]
      split_ifs with hcond
      · rw [show ((main resize fs).1).dstFiles n =
              (runIcons resize ICONS fs).1.dstFiles n from rfl,
            runIcons_dstFiles resize ICONS fs n, if_pos hcond]
      · rfl
  · have hcongr := runIcons_congr resize ICONS ((main resize fs).1) fs hsrc
    have hrepr : ∀ g : FSState,
        (main resize g).2 =
          ((runIcons resize ICONS g).2.1,
           ["Source: " ++ SRC_DIR, "Output: " ++ DST_DIR, ""] ++
             (runIcons resize ICONS g).2.2 ++
             ["", "Converted " ++ toString (runIcons resize ICONS g).2.1 ++ "/" ++
               toString ICONS.length ++ " icons"]) := fun g => rfl
    rw [hrepr, hrepr, hcongr]

/-- C8: the result, console line and written bytes of one icon depend only
on that icon's own source file, convert_icon leaves every other
destination entry untouched, and across the whole batch the final
destination entry for an icon depends only on that icon's source file and
initial destination entry, whatever the other icons do. -/
theorem icon_independence (resize : Resize) (fs fs' : FSState) (n : String)
    (h : fs.srcFiles n = fs'.srcFiles n) :
    (convert_icon resize fs n).1 = (convert_icon resize fs' n).1 ∧
    (convert_icon resize fs n).2.2 = (convert_icon resize fs' n).2.2 ∧
    (∀ m, m ≠ n → (convert_icon resize fs n).2.1.dstFiles m = fs.dstFiles m) ∧
    (fs.dstFiles n = fs'.dstFiles n →
      (runIcons resize ICONS fs).1.dstFiles n =
        (runIcons resize ICONS fs').1.dstFiles n) := by
  refine ⟨?_, ?_, ?_, fun hd => ?_⟩
  · rw [convert_icon_ok, convert_icon_ok, h]
  · rw [convert_icon_log, convert_icon_log, h]
  · intro m hm
    rw [convert_icon_dstFiles]
    simp [hm]
  · rw [runIcons_dstFiles, runIcons_dstFiles, h, hd]

/-- Witness for C8 at two filesystems agreeing on the edit source file. -/
theorem icon_independence_witness :
    (convert_icon sampleResize fsThree "edit").1 =
      (convert_icon sampleResize fsEdit "edit").1 ∧
    (runIcons sampleResize ICONS fsThree).1.dstFiles "edit" =
      (runIcons sampleResize ICONS fsEdit).1.dstFiles "edit" :=
  ⟨(icon_independence sampleResize fsThree fsEdit "edit" rfl).1,
   (icon_independence sampleResize fsThree fsEdit "edit" rfl).2.2.2 rfl⟩

/-- C10: every pixel of every output image is either exactly the magenta
background (255, 0, 255) or has all three of its red, green and blue
channel values at least 50. -/
theorem output_pixel_invariant (resize : Resize) (src : SourceImage)
    (i j : Fin ICON_SIZE) :
    (outputImage (resize src)).pix i j = MAGENTA ∨
    (50 ≤ ((outputImage (resize src)).pix i j).r ∧
     50 ≤ ((outputImage (resize src)).pix i j).g ∧
     50 ≤ ((outputImage (resize src)).pix i j).b) := by
  have key : (outputImage (resize src)).pix i j =
      if (processPixel (resize src i j)).a = 255
      then rgbOf (processPixel (resize src i j)) else MAGENTA := rfl
  by_cases h : (processPixel (resize src i j)).a = 255
  · right
    rw [key, if_pos h]
    simp only [rgbOf, processPixel]
    refine ⟨?_, ?_, ?_⟩ <;>
      exact le_recolor _ _ (by norm_num [DARK_GRAY])
  · left
    rw [key, if_neg h]

end ConvertIcons
